import Mathlib

/-!
Verification of the Redux-style store in `src/1-BasicReduxApplication.js`.

The file has two parts:
* a shallow embedding of the library code (`createStore` with its
  `getState` / `subscribe` / `dispatch` closures, lines 48-68) and of the
  app code (`todos`, `goals`, `app`, lines 71-101);
* theorems settling the behavioural claims about that code.

Modelling conventions:
* the JS `undefined` sentinel for the state variable (`let state;`) is
  `Option σ` with `none` for undefined;
* exceptions are explicit: a reducer is `Option σ → α → Except JsError σ`
  and operations that can throw return an `Option JsError` channel;
* listener values are `JSVal`s: function references (identified by a
  `Nat`, so that the JS `!==` identity test becomes decidable equality)
  or non-callable values such as numbers;
* the reducer argument of `createStore` lives in a closure; the embedding
  threads it explicitly into `dispatch`.
-/

namespace Redux

/-- A JS exception: `typeError` is thrown when a non-function value is
invoked; `thrown msg` is an exception raised by user code (a reducer). -/
inductive JsError where
  | typeError
  | thrown (msg : String)
deriving DecidableEq, Repr

/-- A JS value in listener position: either a function reference
(identified by a `Nat`, modelling reference identity) or a non-callable
value such as a number. -/
inductive JSVal where
  | func (id : Nat)
  | num (n : Int)
deriving DecidableEq, Repr

/-- Whether the value can be invoked as a callback. -/
def JSVal.isFunc : JSVal → Bool
  | .func _ => true
  | .num _ => false

/-- The closure state of a store made by `createStore` (lines 48-49):
`let state;` (undefined at first) and `let listeners = []`. -/
structure Store (σ : Type) where
  state : Option σ
  listeners : List JSVal
deriving DecidableEq, Repr

/-- `createStore(reducer)` (lines 2, 48-49, 63-68): the reducer is kept in
the closure (here: passed to `dispatch` explicitly) and the body performs
no initial dispatch — `state` stays undefined and `listeners` empty. -/
def createStore {σ α : Type} (reducer : Option σ → α → Except JsError σ) :
    Store σ :=
  { state := none, listeners := [] }

/-- `getState` (line 50): returns the current value of `state`. -/
def getState {σ : Type} (st : Store σ) : Option σ :=
  st.state

/-- `subscribe` (lines 51-53): pushes the listener onto `listeners`
unconditionally — there is no validation of the argument, and
`Array.prototype.push` never throws, so the error channel is `none` for
every input.  The returned unsubscribe closure is modelled by
`unsubscribe` below, applied to the same captured `listener` value. -/
def subscribe {σ : Type} (listener : JSVal) (st : Store σ) :
    Store σ × Option JsError :=
  ({ st with listeners := st.listeners ++ [listener] }, none)

/-- The closure returned by `subscribe` (lines 54-56):
`listeners = listeners.filter((l) => l !== listener)`.  The filter keeps
every entry not identical to the captured `listener`; filtering and
reassignment cannot throw, so the error channel is `none`. -/
def unsubscribe {σ : Type} (listener : JSVal) (st : Store σ) :
    Store σ × Option JsError :=
  ({ st with listeners := st.listeners.filter (fun l => l ≠ listener) }, none)

/-- `listeners.forEach((listener) => listener())` (line 61) over inert
listener values: invoking a function reference succeeds and is logged by
its id; invoking a non-callable value throws a `TypeError`, ending the
pass.  Returns the ids invoked, in order, and the exception if any. -/
def invokeAll : List JSVal → List Nat × Option JsError
  | [] => ([], none)
  | .func i :: rest =>
      let p := invokeAll rest
      (i :: p.1, p.2)
  | .num _ :: _ => ([], some .typeError)

/-- The outcome of one `dispatch` call: the store closure state afterwards,
the ids of the listeners that were invoked (in order), the exception that
propagated to the caller (if any), and the JS return value of `dispatch`
itself (`some` a value, or `none` for `undefined`). -/
structure DispatchResult (σ α : Type) where
  store : Store σ
  invoked : List Nat
  err : Option JsError
  ret : Option α
deriving DecidableEq, Repr

/-- `dispatch` (lines 59-62): `state = reducer(state, action)` followed by
`listeners.forEach((listener) => listener())`.  If the reducer throws, the
assignment never completes, the `forEach` is not reached, and the
exception propagates; otherwise the new state is committed and every
registered listener is invoked.  The arrow function has a block body with
no `return` statement, so its return value is `undefined` (`ret := none`)
on both paths. -/
def dispatch {σ α : Type} (reducer : Option σ → α → Except JsError σ)
    (st : Store σ) (action : α) : DispatchResult σ α :=
  match reducer st.state action with
  | .error e => { store := st, invoked := [], err := some e, ret := none }
  | .ok s' =>
      let st' : Store σ := { st with state := some s' }
      let p := invokeAll st'.listeners
      { store := st', invoked := p.1, err := p.2, ret := none }

/-- Folding a sequence of `dispatch` calls over a store, keeping the store
closure state. -/
def dispatchAll {σ α : Type} (reducer : Option σ → α → Except JsError σ)
    (st : Store σ) (actions : List α) : Store σ :=
  actions.foldl (fun s a => (dispatch reducer s a).store) st

/-- The concatenated invocation logs of a sequence of `dispatch` calls. -/
def dispatchLogs {σ α : Type} (reducer : Option σ → α → Except JsError σ)
    (st : Store σ) : List α → List Nat
  | [] => []
  | a :: as =>
      (dispatch reducer st a).invoked ++
        dispatchLogs reducer (dispatch reducer st a).store as

/-! ### App code (lines 71-102)

Actions are plain records with a discriminant string `type` and payload
fields; we model the well-formed records the app dispatches, so each
payload field is total (with a default, as in the driver's objects). -/

/-- A todo item `{id, name, complete}` (lines 108-133). -/
structure Todo where
  id : Nat
  name : String
  complete : Bool
deriving DecidableEq, Repr

/-- A goal item `{id, name}` (lines 145-159). -/
structure Goal where
  id : Nat
  name : String
deriving DecidableEq, Repr

/-- An action record: the `type` discriminant plus the payload fields the
app's reducers read (`todo`, `id`, `goal`). -/
structure Action where
  type : String
  todo : Todo := ⟨0, "", false⟩
  id : Nat := 0
  goal : Goal := ⟨0, ""⟩
deriving DecidableEq, Repr

/-- `todos` (lines 71-83): the default parameter `state = []` applies when
the argument is undefined; the `switch` on `action.type` is an equality
chain with an identity default arm.  `Object.assign({}, todo,
{complete: !todo.complete})` is a copy with the flag flipped. -/
def todos (state : Option (List Todo)) (action : Action) : List Todo :=
  let s := state.getD []
  if action.type = "ADD_TODO" then s ++ [action.todo]
  else if action.type = "REMOVE_TODO" then
    s.filter (fun t => t.id ≠ action.id)
  else if action.type = "TOGGLE_TODO" then
    s.map (fun t => if t.id ≠ action.id then t
      else { t with complete := !t.complete })
  else s

/-- `goals` (lines 85-94): same shape with two recognized types. -/
def goals (state : Option (List Goal)) (action : Action) : List Goal :=
  let s := state.getD []
  if action.type = "ADD_GOAL" then s ++ [action.goal]
  else if action.type = "REMOVE_GOAL" then
    s.filter (fun g => g.id ≠ action.id)
  else s

/-- The composite state assembled by the root reducer: one slice per
slice-name. -/
structure AppState where
  todos : List Todo
  goals : List Goal
deriving DecidableEq, Repr

/-- `app` (lines 96-101): the root reducer.  The default `state={}`
applies when the argument is undefined, and reading `.todos` / `.goals`
off `{}` yields undefined again, so each slice reducer receives `none`
exactly when the composite state is undefined. -/
def app (state : Option AppState) (action : Action) : AppState :=
  { todos := todos (state.map (·.todos)) action
    goals := goals (state.map (·.goals)) action }

/-- `app` as it is handed to `createStore` on line 102: a pure JS function
that never throws, embedded into the exception-aware reducer type. -/
def appE (state : Option AppState) (action : Action) : Except JsError AppState :=
  .ok (app state action)

/-! ### The notification pass with re-entrant subscribe/unsubscribe

For claim C4 the listeners' side effects on the listener list matter, so
lines 51-62 are modelled at the level of the JS objects involved:

* `arr` — the contents of the array object that `forEach` was called on;
* `cur` — the current value of the closure variable `listeners`;
* `aliased` — whether `cur` still refers to that same array object.

`subscribe` during the pass does `listeners.push(l)`: an in-place
mutation, so it extends `arr` as well while `aliased` holds.
`unsubscribe` does `listeners = listeners.filter(...)`: it builds a fresh
array and rebinds the variable, so `arr` is untouched and the alias is
broken.  `forEach` itself follows the JS semantics: the length is read
once before the loop and elements are read live by index. -/

/-- The mutable objects live during one notification pass. -/
structure PassState where
  arr : List Nat
  cur : List Nat
  aliased : Bool
deriving DecidableEq, Repr

/-- One store operation a listener can perform from inside the pass. -/
inductive ListenerOp where
  | sub (l : Nat)
  | unsub (l : Nat)
deriving DecidableEq, Repr

/-- Effect of a single `subscribe`/`unsubscribe` call on the pass state
(lines 52 and 55). -/
def applyOp (ps : PassState) : ListenerOp → PassState
  | .sub l =>
      if ps.aliased then ⟨ps.arr ++ [l], ps.cur ++ [l], true⟩
      else ⟨ps.arr, ps.cur ++ [l], false⟩
  | .unsub l =>
      ⟨ps.arr, ps.cur.filter (fun x => x ≠ l), false⟩

/-- `forEach` (line 61) with the length captured up front: `fuel` counts
the remaining indices up to that captured length, `k` is the current
index, and each visited listener runs its behaviour (a sequence of
subscribe/unsubscribe calls) before the next index is read.  Returns the
final pass state and the listeners invoked, in order. -/
def runPassAux (behavior : Nat → List ListenerOp) :
    Nat → Nat → PassState → PassState × List Nat
  | 0, _, ps => (ps, [])
  | fuel + 1, k, ps =>
      match ps.arr[k]? with
      | some l =>
          let ps1 := (behavior l).foldl applyOp ps
          let q := runPassAux behavior fuel (k + 1) ps1
          (q.1, l :: q.2)
      | none => runPassAux behavior fuel (k + 1) ps

/-- One whole notification pass, started on the array `forEach` is called
on (`ps.arr`), with the length captured at the start. -/
def runPass (behavior : Nat → List ListenerOp) (ps : PassState) :
    PassState × List Nat :=
  runPassAux behavior ps.arr.length 0 ps

/-! ### Helper lemmas -/

/-- A dispatch with a pure (never-throwing) reducer commits exactly the
reducer's result as the new state. -/
theorem dispatch_ok_store {σ α : Type} (f : Option σ → α → σ) (st : Store σ)
    (a : α) :
    (dispatch (fun s b => Except.ok (f s b)) st a).store
      = { st with state := some (f st.state a) } :=
  rfl

/-- The state after a sequence of dispatches of a pure reducer is the
left-fold of the reducer over the starting state. -/
theorem dispatchAll_state {σ α : Type} (f : Option σ → α → σ) (st : Store σ)
    (as : List α) :
    (dispatchAll (fun s b => Except.ok (f s b)) st as).state
      = as.foldl (fun s a => some (f s a)) st.state := by
  induction as generalizing st with
  | nil => rfl
  | cons a as ih =>
      show (dispatchAll _ (dispatch _ st a).store as).state = _
      rw [ih]
      rfl

/-- Every id in the invocation log of a pass over inert listeners belongs
to a function value in the listener list. -/
theorem mem_of_mem_invokeAll {i : Nat} :
    ∀ {l : List JSVal}, i ∈ (invokeAll l).1 → JSVal.func i ∈ l := by
  intro l
  induction l with
  | nil => intro h; simp [invokeAll] at h
  | cons v rest ih =>
      cases v with
      | func j =>
          intro h
          simp only [invokeAll, List.mem_cons] at h ⊢
          rcases h with h | h
          · exact Or.inl (by rw [h])
          · exact Or.inr (ih h)
      | num n => intro h; simp [invokeAll] at h

/-- `dispatch` never changes the listener list (only listeners' own calls
to subscribe/unsubscribe do, modelled separately below). -/
theorem dispatch_store_listeners {σ α : Type}
    (r : Option σ → α → Except JsError σ) (st : Store σ) (a : α) :
    (dispatch r st a).store.listeners = st.listeners := by
  cases h : r st.state a <;> simp [dispatch, h]

/-- A function value absent from the listener list is not invoked by a
dispatch. -/
theorem not_mem_dispatch_invoked {σ α : Type}
    (r : Option σ → α → Except JsError σ) (st : Store σ) (a : α) (i : Nat)
    (h : JSVal.func i ∉ st.listeners) : i ∉ (dispatch r st a).invoked := by
  cases hr : r st.state a with
  | error e => simp [dispatch, hr]
  | ok s' =>
      simp only [dispatch, hr]
      intro hmem
      exact h (mem_of_mem_invokeAll hmem)

/-- A function value absent from the listener list is invoked by no
dispatch of any later sequence. -/
theorem not_mem_dispatchLogs {σ α : Type}
    (r : Option σ → α → Except JsError σ) (i : Nat) :
    ∀ (as : List α) (st : Store σ),
      JSVal.func i ∉ st.listeners → i ∉ dispatchLogs r st as := by
  intro as
  induction as with
  | nil => intro st _; simp [dispatchLogs]
  | cons a as ih =>
      intro st h
      simp only [dispatchLogs, List.mem_append, not_or]
      refine ⟨not_mem_dispatch_invoked r st a i h, ?_⟩
      refine ih _ ?_
      rw [dispatch_store_listeners]
      exact h

/-- Invoking an all-functions list followed by a non-callable value raises
a `TypeError`. -/
theorem invokeAll_append_notFunc (l : List JSVal) (v : JSVal)
    (hl : ∀ w ∈ l, w.isFunc = true) (hv : v.isFunc = false) :
    (invokeAll (l ++ [v])).2 = some JsError.typeError := by
  induction l with
  | nil =>
      cases v with
      | func i => simp [JSVal.isFunc] at hv
      | num n => rfl
  | cons w rest ih =>
      have hw := hl w (List.mem_cons_self w rest)
      cases w with
      | func j =>
          simp only [List.cons_append, invokeAll]
          exact ih fun x hx => hl x (List.mem_cons_of_mem _ hx)
      | num n => simp [JSVal.isFunc] at hw

/-- Any single subscribe/unsubscribe call can only extend the array being
iterated by `forEach` — never shorten or rewrite it. -/
theorem applyOp_arr (ps : PassState) (op : ListenerOp) :
    ∃ t, (applyOp ps op).arr = ps.arr ++ t := by
  cases op with
  | sub l =>
      cases hps : ps.aliased
      · exact ⟨[], by simp [applyOp, hps]⟩
      · exact ⟨[l], by simp [applyOp, hps]⟩
  | unsub l => exact ⟨[], by simp [applyOp]⟩

/-- A listener's whole behaviour can only extend the iterated array. -/
theorem foldlOps_arr (ops : List ListenerOp) (ps : PassState) :
    ∃ t, (ops.foldl applyOp ps).arr = ps.arr ++ t := by
  induction ops generalizing ps with
  | nil => exact ⟨[], by simp⟩
  | cons op ops ih =>
      obtain ⟨t1, h1⟩ := applyOp_arr ps op
      obtain ⟨t2, h2⟩ := ih (applyOp ps op)
      exact ⟨t1 ++ t2, by rw [List.foldl_cons, h2, h1, List.append_assoc]⟩

/-- The key invariant of the pass: if the captured array began as `A` and
`fuel` indices remain out of the captured length `A.length`, the rest of
the pass invokes exactly the remaining entries of `A`, whatever the
listeners do to the listener list. -/
theorem runPassAux_log (behavior : Nat → List ListenerOp) (A : List Nat) :
    ∀ (fuel k : Nat) (ps : PassState), k + fuel = A.length →
      (∃ t, ps.arr = A ++ t) →
      (runPassAux behavior fuel k ps).2 = A.drop k := by
  intro fuel
  induction fuel with
  | zero =>
      intro k ps hk _
      have hA : A.length ≤ k := by omega
      simp [runPassAux, List.drop_eq_nil_of_le hA]
  | succ fuel ih =>
      intro k ps hk hpre
      obtain ⟨t, ht⟩ := hpre
      have hklt : k < A.length := by omega
      have harr : ps.arr[k]? = some (A.get ⟨k, hklt⟩) := by
        rw [ht, List.getElem?_append_left hklt, List.getElem?_eq_getElem hklt]
        rfl
      obtain ⟨t2, h2⟩ := foldlOps_arr (behavior (A.get ⟨k, hklt⟩)) ps
      have hpre2 : ∃ u,
          ((behavior (A.get ⟨k, hklt⟩)).foldl applyOp ps).arr = A ++ u :=
        ⟨t ++ t2, by rw [h2, ht, List.append_assoc]⟩
      have hrec := ih (k + 1) ((behavior (A.get ⟨k, hklt⟩)).foldl applyOp ps)
        (by omega) hpre2
      simp only [runPassAux, harr, hrec]
      rw [List.drop_eq_getElem_cons hklt]
      rfl

/-- A reducer that fails unconditionally for the action type `BAD` and
otherwise behaves like the app's root reducer — the reducer-failure
scenario of the spec, used as a concrete instance below. -/
def badReducer (state : Option AppState) (action : Action) :
    Except JsError AppState :=
  if action.type = "BAD" then .error (.thrown "BAD") else .ok (app state action)

/-! ### The claims -/

/-- C1: for every (pure) reducer and every finite sequence of actions
dispatched through a store built by `createStore`, `getState()` after the
whole sequence is the left-fold of the reducer over the store's initial
state (the undefined sentinel) and the action sequence, in dispatch
order. -/
theorem c1_getState_foldl {σ α : Type} (f : Option σ → α → σ) (as : List α) :
    getState (dispatchAll (fun s b => Except.ok (f s b))
        (createStore (fun s b => Except.ok (f s b))) as)
      = as.foldl (fun s a => some (f s a))
          (getState (createStore (fun s b => Except.ok (f s b)))) :=
  dispatchAll_state f (createStore fun s b => Except.ok (f s b)) as

/-- C2 (counterexample): the claim says `getState()` before any dispatch
already returns the reducer's default state, but `createStore` performs no
initialization dispatch: with the app's root reducer, `getState` is the
undefined sentinel `none`, not `some` of the default state
`{todos: [], goals: []}` the reducer would produce. -/
theorem c2_counterexample :
    getState (createStore appE) = none ∧
    app none { type := "@@INIT" } = { todos := [], goals := [] } ∧
    getState (createStore appE) ≠ some (app none { type := "@@INIT" }) := by
  refine ⟨rfl, by decide, by decide⟩

/-- C2 (amended): a store built by `createStore` starts uninitialized —
the reducer is not invoked at construction and `getState()` before any
dispatch returns the undefined sentinel; the reducer's default state is
established only by the first dispatch, which applies the reducer to the
undefined sentinel. -/
theorem c2_amended {σ α : Type} (f : Option σ → α → σ) (a : α) :
    getState (createStore (fun s b => Except.ok (f s b))) = (none : Option σ) ∧
    getState (dispatch (fun s b => Except.ok (f s b))
        (createStore (fun s b => Except.ok (f s b))) a).store
      = some (f none a) :=
  ⟨rfl, rfl⟩

/-- C3: when the reducer throws on an action, `dispatch` leaves the state
(indeed the whole store closure state) unchanged, invokes no listener, and
propagates the failure synchronously to its caller. -/
theorem c3_reducer_failure {σ α : Type}
    (r : Option σ → α → Except JsError σ) (st : Store σ) (a : α) (e : JsError)
    (h : r st.state a = .error e) :
    (dispatch r st a).store = st ∧ (dispatch r st a).invoked = [] ∧
    (dispatch r st a).err = some e := by
  simp [dispatch, h]

/-- Witness for C3: dispatching `BAD` through the spec's failing reducer,
on a store holding the default state with one registered listener, leaves
the store unchanged, fires no listener, and surfaces the exception. -/
theorem c3_reducer_failure_witness :
    (dispatch badReducer
        ⟨some ⟨[], []⟩, [JSVal.func 0]⟩ { type := "BAD" }).store
      = ⟨some ⟨[], []⟩, [JSVal.func 0]⟩ ∧
    (dispatch badReducer
        ⟨some ⟨[], []⟩, [JSVal.func 0]⟩ { type := "BAD" }).invoked = [] ∧
    (dispatch badReducer
        ⟨some ⟨[], []⟩, [JSVal.func 0]⟩ { type := "BAD" }).err
      = some (JsError.thrown "BAD") :=
  c3_reducer_failure badReducer ⟨some ⟨[], []⟩, [JSVal.func 0]⟩
    { type := "BAD" } (JsError.thrown "BAD") rfl

/-- C4: whatever subscriptions and unsubscriptions the listeners perform
from inside the notification pass, the pass invokes exactly the
registration list as it stood when the pass began, in order: a listener
subscribed during the pass is not invoked by it, and a listener
unsubscribed during the pass is still invoked if it was registered at the
start. -/
theorem c4_snapshot_pass (behavior : Nat → List ListenerOp) (A : List Nat) :
    (runPass behavior ⟨A, A, true⟩).2 = A := by
  have h := runPassAux_log behavior A A.length 0 ⟨A, A, true⟩
    (by omega) ⟨[], by simp⟩
  simpa [runPass] using h

/-- C5: one application of the root reducer `app` yields exactly the
composite whose `todos` field is the `todos` slice reducer applied to the
previous `todos` slice and the action, and whose `goals` field is the
`goals` slice reducer applied to the previous `goals` slice and the
action — each slice reducer receives only its own sub-state, once. -/
theorem c5_root_reducer_composition (t : List Todo) (g : List Goal)
    (a : Action) :
    app (some ⟨t, g⟩) a
      = { todos := todos (some t) a, goals := goals (some g) a } :=
  rfl

/-- C6: after subscribing the same listener reference twice, one call of
the returned unsubscribe handle (both handles filter by the same captured
reference) removes all registrations of that reference, and the listener
is invoked by no subsequent dispatch. -/
theorem c6_unsubscribe_removes_all {σ α : Type}
    (r : Option σ → α → Except JsError σ) (i : Nat) (st : Store σ)
    (as : List α) :
    JSVal.func i ∉
      (unsubscribe (.func i)
        (subscribe (.func i) (subscribe (.func i) st).1).1).1.listeners ∧
    i ∉ dispatchLogs r
      (unsubscribe (.func i)
        (subscribe (.func i) (subscribe (.func i) st).1).1).1 as := by
  have hmem : JSVal.func i ∉
      (unsubscribe (.func i)
        (subscribe (.func i) (subscribe (.func i) st).1).1).1.listeners := by
    simp [subscribe, unsubscribe, List.mem_filter]
  exact ⟨hmem, not_mem_dispatchLogs r i as _ hmem⟩

/-- C7: calling an unsubscribe handle a second time raises no error and
leaves the listener registration list exactly as the single call left
it (removal by filtering is idempotent). -/
theorem c7_double_unsubscribe {σ : Type} (v : JSVal) (st : Store σ) :
    (unsubscribe v (unsubscribe v st).1).1 = (unsubscribe v st).1 ∧
    (unsubscribe v (unsubscribe v st).1).2 = none := by
  refine ⟨?_, rfl⟩
  simp [unsubscribe, List.filter_filter]

/-- C8 (counterexample): the claim says subscribing a non-invocable value
fails immediately at subscribe time, but `subscribe` validates nothing:
subscribing the number `5` raises no error and registers it, and the
failure only surfaces at the next dispatch, as a `TypeError` from the
notification pass. -/
theorem c8_counterexample :
    (subscribe (JSVal.num 5) (createStore appE)).2 = none ∧
    (subscribe (JSVal.num 5) (createStore appE)).1.listeners
      = [JSVal.num 5] ∧
    (dispatch appE (subscribe (JSVal.num 5) (createStore appE)).1
        { type := "X" }).err = some JsError.typeError := by
  refine ⟨rfl, rfl, by decide⟩

/-- C8 (amended): `subscribe` accepts any value without validation and
never fails at subscribe time; if the value is not invocable, the failure
surfaces at the next successful reduction's notification pass as a
`TypeError` propagated out of `dispatch`. -/
theorem c8_amended {σ α : Type} (r : Option σ → α → Except JsError σ)
    (st : Store σ) (v : JSVal) (a : α) (s : σ)
    (hprev : ∀ w ∈ st.listeners, w.isFunc = true)
    (hv : v.isFunc = false)
    (hr : r st.state a = .ok s) :
    (subscribe v st).2 = none ∧
    (dispatch r (subscribe v st).1 a).err = some JsError.typeError := by
  refine ⟨rfl, ?_⟩
  simp only [dispatch, subscribe, hr]
  exact invokeAll_append_notFunc st.listeners v hprev hv

/-- Witness for C8 (amended): subscribing the number `5` to a fresh store
over the app's root reducer raises nothing, and the next dispatch raises
the `TypeError`. -/
theorem c8_amended_witness :
    (subscribe (JSVal.num 5) (createStore appE)).2 = none ∧
    (dispatch appE (subscribe (JSVal.num 5) (createStore appE)).1
        { type := "Y" }).err = some JsError.typeError :=
  c8_amended appE (createStore appE) (JSVal.num 5) { type := "Y" }
    (app none { type := "Y" }) (by decide) (by decide) rfl

/-- C9: an action whose type is recognized by neither slice reducer is
returned unchanged by each slice reducer, and the root reducer returns a
composite structurally equal to its input. -/
theorem c9_unknown_action_identity (t : List Todo) (g : List Goal)
    (a : Action)
    (h1 : a.type ≠ "ADD_TODO") (h2 : a.type ≠ "REMOVE_TODO")
    (h3 : a.type ≠ "TOGGLE_TODO") (h4 : a.type ≠ "ADD_GOAL")
    (h5 : a.type ≠ "REMOVE_GOAL") :
    todos (some t) a = t ∧ goals (some g) a = g ∧
    app (some ⟨t, g⟩) a = ⟨t, g⟩ := by
  simp [todos, goals, app, h1, h2, h3, h4, h5]

/-- Witness for C9: an `UNKNOWN` action leaves nonempty slices and their
composite untouched. -/
theorem c9_unknown_action_identity_witness :
    todos (some [⟨0, "Walk the dog", false⟩]) { type := "UNKNOWN" }
      = [⟨0, "Walk the dog", false⟩] ∧
    goals (some [⟨0, "Learn Redux"⟩]) { type := "UNKNOWN" }
      = [⟨0, "Learn Redux"⟩] ∧
    app (some ⟨[⟨0, "Walk the dog", false⟩], [⟨0, "Learn Redux"⟩]⟩)
        { type := "UNKNOWN" }
      = ⟨[⟨0, "Walk the dog", false⟩], [⟨0, "Learn Redux"⟩]⟩ :=
  c9_unknown_action_identity [⟨0, "Walk the dog", false⟩]
    [⟨0, "Learn Redux"⟩] { type := "UNKNOWN" }
    (by decide) (by decide) (by decide) (by decide) (by decide)

/-- C10: `dispatch` is an arrow function with a block body and no return
statement, so for every action it returns `undefined` — never the
dispatched action. -/
theorem c10_dispatch_returns_undefined {σ α : Type}
    (r : Option σ → α → Except JsError σ) (st : Store σ) (a : α) :
    (dispatch r st a).ret = none ∧ (dispatch r st a).ret ≠ some a := by
  cases h : r st.state a <;> simp [dispatch, h]

end Redux
